import Mathlib

/-!
Verification of the vision-based meal plate analyzer
(src/vision_meal_analyzer.py) against its specification.

The Python program is a linear pipeline: preprocess an image, recognize
ingredients, resolve each ingredient to a nutrition record via an external
HTTP service (falling back to a model-based estimator on a non-200 status),
sum the records into totals, assess healthiness, and render a text report.

Shallow embedding conventions used throughout:
- Python dicts with fixed keys become Lean structures; the `Totals` and
  nutrition-record dicts share the shape `NutritionRecord`.
- Python `None` becomes `Option.none`; Python truthiness of a nutrition
  record (a non-empty dict, hence always truthy) is `Option.isSome`.
- Numeric macronutrient values are modelled as `Int`.
- The HTTP service is an explicit function argument from the request the
  code builds to a response (status code plus parsed JSON payload), so the
  resolver is a pure function of the mocked service.
- The renderer calls `summarize_nutrition`, a name defined nowhere in the
  program; executing that call raises a Python `NameError`.  The embedding
  returns `Except PyError String`, with `PyError.nameError` for that raise.
-/

/-- One ingredient's macronutrient breakdown.  The four fields mirror
exactly the four dict keys used by the Python code: `calories`,
`protein_g`, `fat_g`, `carbs_g`.  `calculate_totals` initialises its
accumulator dict with exactly these keys and never adds others, so the
Totals value has the same shape. -/
structure NutritionRecord where
  calories : Int
  protein_g : Int
  fat_g : Int
  carbs_g : Int
  deriving DecidableEq, Repr

/-- Loop body of `calculate_totals` (lines 79-84): Python tests `if data:`,
where `None` is falsy and a nutrition-record dict is truthy, so a `some`
record is added field-wise into the accumulator and `none` is skipped. -/
def totals_step (totals : NutritionRecord) (data : Option NutritionRecord) :
    NutritionRecord :=
  match data with
  | some d =>
      { calories := totals.calories + d.calories
        protein_g := totals.protein_g + d.protein_g
        fat_g := totals.fat_g + d.fat_g
        carbs_g := totals.carbs_g + d.carbs_g }
  | none => totals

/-- Translation of `calculate_totals` (lines 77-85): start from the
all-zero dict and fold the loop body over the input list in order. -/
def calculate_totals (nutrition_data_list : List (Option NutritionRecord)) :
    NutritionRecord :=
  nutrition_data_list.foldl totals_step
    { calories := 0, protein_g := 0, fat_g := 0, carbs_g := 0 }

/-- The specification's wording of the aggregate ("the field-wise sum of
the calories, protein_g, fat_g, and carbs_g fields of all non-null records
in the list"), written independently of the loop in the source. -/
def spec_fieldwise_totals (l : List (Option NutritionRecord)) : NutritionRecord :=
  { calories := ((l.filterMap id).map NutritionRecord.calories).sum
    protein_g := ((l.filterMap id).map NutritionRecord.protein_g).sum
    fat_g := ((l.filterMap id).map NutritionRecord.fat_g).sum
    carbs_g := ((l.filterMap id).map NutritionRecord.carbs_g).sum }

/-- Field-wise addition of two records, used to state the fold invariant. -/
def add_records (a b : NutritionRecord) : NutritionRecord :=
  { calories := a.calories + b.calories
    protein_g := a.protein_g + b.protein_g
    fat_g := a.fat_g + b.fat_g
    carbs_g := a.carbs_g + b.carbs_g }

lemma foldl_totals_step (l : List (Option NutritionRecord)) :
    ∀ t : NutritionRecord,
      l.foldl totals_step t = add_records t (spec_fieldwise_totals l) := by
  induction l with
  | nil =>
      intro t
      simp [spec_fieldwise_totals, add_records]
  | cons x xs ih =>
      intro t
      cases x with
      | none =>
          simp [List.foldl_cons, totals_step, ih, spec_fieldwise_totals,
            List.filterMap_cons, id_eq]
      | some d =>
          simp only [List.foldl_cons, totals_step, ih, spec_fieldwise_totals,
            List.filterMap_cons, id_eq, add_records, List.map_cons,
            List.sum_cons, NutritionRecord.mk.injEq]
          omega

/-- The aggregator computes exactly the spec's field-wise sum. -/
lemma calculate_totals_eq_spec (l : List (Option NutritionRecord)) :
    calculate_totals l = spec_fieldwise_totals l := by
  simp only [calculate_totals, foldl_totals_step, add_records,
    spec_fieldwise_totals, NutritionRecord.mk.injEq]
  omega

/-- C1: for every list of nutrition records, the Totals produced by
`calculate_totals` equal the field-wise sum of the `calories`,
`protein_g`, `fat_g`, and `carbs_g` fields of all non-null records in
the list. -/
theorem calculate_totals_is_fieldwise_sum
    (l : List (Option NutritionRecord)) :
    calculate_totals l = spec_fieldwise_totals l :=
  calculate_totals_eq_spec l

/-- C5: on the three concrete records with calories (250, 50, 120),
protein (30, 4, 0), fat (8, 0, 14) and carbs (5, 10, 0),
`calculate_totals` returns exactly calories 420, protein 34, fat 22,
carbs 15. -/
theorem calculate_totals_scenario :
    calculate_totals
      [some { calories := 250, protein_g := 30, fat_g := 8, carbs_g := 5 },
       some { calories := 50, protein_g := 4, fat_g := 0, carbs_g := 10 },
       some { calories := 120, protein_g := 0, fat_g := 14, carbs_g := 0 }] =
      { calories := 420, protein_g := 34, fat_g := 22, carbs_g := 15 } := by
  decide

/-- C3: aggregation is order-independent: `calculate_totals` returns the
same Totals on any permutation of its input list. -/
theorem calculate_totals_perm_invariant
    (l l' : List (Option NutritionRecord)) (h : l.Perm l') :
    calculate_totals l = calculate_totals l' := by
  rw [calculate_totals_eq_spec, calculate_totals_eq_spec]
  have hf : (l.filterMap id).Perm (l'.filterMap id) := h.filterMap id
  simp only [spec_fieldwise_totals, NutritionRecord.mk.injEq]
  exact ⟨(hf.map NutritionRecord.calories).sum_eq,
    (hf.map NutritionRecord.protein_g).sum_eq,
    (hf.map NutritionRecord.fat_g).sum_eq,
    (hf.map NutritionRecord.carbs_g).sum_eq⟩

/-- Witness for C3 at a concrete pair of lists that are permutations of
each other. -/
theorem calculate_totals_perm_invariant_witness :
    calculate_totals
      [some { calories := 1, protein_g := 2, fat_g := 3, carbs_g := 4 }, none] =
    calculate_totals
      [none, some { calories := 1, protein_g := 2, fat_g := 3, carbs_g := 4 }] :=
  calculate_totals_perm_invariant _ _ (by decide)

/-- C4: inserting one null entry at any position of the list (here split
as a prefix and a suffix around the inserted `none`) leaves
`calculate_totals` unchanged. -/
theorem calculate_totals_skips_null
    (l1 l2 : List (Option NutritionRecord)) :
    calculate_totals (l1 ++ none :: l2) = calculate_totals (l1 ++ l2) := by
  rw [calculate_totals_eq_spec, calculate_totals_eq_spec]
  simp [spec_fieldwise_totals, List.filterMap_append, List.filterMap_cons]

/-- C9: on a list all of whose entries are null (in particular on the
empty list), `calculate_totals` returns the record whose four fields —
exactly `calories`, `protein_g`, `fat_g`, `carbs_g`, the only fields the
`NutritionRecord` shape has — are all zero. -/
theorem calculate_totals_all_none_zero
    (l : List (Option NutritionRecord)) (h : ∀ x ∈ l, x = none) :
    calculate_totals l =
      { calories := 0, protein_g := 0, fat_g := 0, carbs_g := 0 } := by
  rw [calculate_totals_eq_spec]
  have hnil : l.filterMap id = [] := by
    rw [List.filterMap_eq_nil_iff]
    intro a ha
    simp [h a ha]
  simp [spec_fieldwise_totals, hnil]

/-- Witness for C9 on a concrete list of two null entries. -/
theorem calculate_totals_all_none_zero_witness :
    calculate_totals [none, none] =
      { calories := 0, protein_g := 0, fat_g := 0, carbs_g := 0 } :=
  calculate_totals_all_none_zero [none, none] (by decide)

/-- The HTTP request `get_nutrition_data` builds (lines 46-53): the fixed
endpoint URL, the three headers, and the JSON body's single `query` field
built by the f-string from quantity and ingredient. -/
structure NutritionixRequest where
  url : String
  x_app_id : String
  x_app_key : String
  content_type : String
  query : String
  deriving DecidableEq, Repr

/-- A response of the lookup service as the code observes it: the HTTP
status code and the parsed JSON nutrition payload returned by
`response.json()`. -/
structure ServiceResponse where
  status_code : Nat
  json : NutritionRecord
  deriving DecidableEq, Repr

/-- Request construction inside `get_nutrition_data` (lines 46-52); the
app id and key come from environment configuration and are passed in
explicitly here. -/
def nutritionix_request (app_id app_key ingredient quantity : String) :
    NutritionixRequest :=
  { url := "https://trackapi.nutritionix.com/v2/natural/nutrients"
    x_app_id := app_id
    x_app_key := app_key
    content_type := "application/json"
    query := quantity ++ " of " ++ ingredient }

/-- Translation of `get_nutrition_data` (lines 45-57): post the built
request to the service (modelled as an explicit function from requests to
responses) and return the parsed payload on status 200, `None` otherwise. -/
def get_nutrition_data (service : NutritionixRequest → ServiceResponse)
    (app_id app_key ingredient quantity : String) : Option NutritionRecord :=
  let response := service (nutritionix_request app_id app_key ingredient quantity)
  if response.status_code = 200 then some response.json else none

/-- Translation of `estimate_macronutrients_with_vision_model`
(lines 60-74): the source builds a prompt from ingredient and quantity but
returns a hard-coded record regardless. -/
def estimate_macronutrients_with_vision_model
    (ingredient quantity : String) : NutritionRecord :=
  { calories := 250, protein_g := 30, fat_g := 8, carbs_g := 5 }

/-- Loop body of `main` (lines 121-125): call `get_nutrition_data` and, if
the result is falsy (`None`; a parsed nutrition-record dict is truthy),
replace it with the estimator's output.  The resolved value appended to
`nutrition_data` therefore always exists — its type here is a plain
`NutritionRecord`, never null. -/
def resolve_nutrition (service : NutritionixRequest → ServiceResponse)
    (app_id app_key ingredient quantity : String) : NutritionRecord :=
  match get_nutrition_data service app_id app_key ingredient quantity with
  | some data => data
  | none => estimate_macronutrients_with_vision_model ingredient quantity

/-- C2: the fallback triggers exactly on a non-200 status.  If the service
answers the built request with a non-200 status, `get_nutrition_data`
yields no data and the record used downstream is exactly the estimator's
output (a total `NutritionRecord`, never null); if it answers 200, the
record used downstream is the parsed service payload, so the estimator's
value plays no part. -/
theorem resolve_nutrition_fallback_iff_non200
    (service : NutritionixRequest → ServiceResponse)
    (app_id app_key ingredient quantity : String) :
    ((service (nutritionix_request app_id app_key ingredient quantity)).status_code ≠ 200 →
      get_nutrition_data service app_id app_key ingredient quantity = none ∧
      resolve_nutrition service app_id app_key ingredient quantity =
        estimate_macronutrients_with_vision_model ingredient quantity) ∧
    ((service (nutritionix_request app_id app_key ingredient quantity)).status_code = 200 →
      get_nutrition_data service app_id app_key ingredient quantity =
        some (service (nutritionix_request app_id app_key ingredient quantity)).json ∧
      resolve_nutrition service app_id app_key ingredient quantity =
        (service (nutritionix_request app_id app_key ingredient quantity)).json) := by
  constructor
  · intro h
    have hget : get_nutrition_data service app_id app_key ingredient quantity = none := by
      simp [get_nutrition_data, h]
    exact ⟨hget, by simp [resolve_nutrition, hget]⟩
  · intro h
    have hget : get_nutrition_data service app_id app_key ingredient quantity =
        some (service (nutritionix_request app_id app_key ingredient quantity)).json := by
      simp [get_nutrition_data, h]
    exact ⟨hget, by simp [resolve_nutrition, hget]⟩

/-- Witness for C2: a mocked service that always answers 404 makes the
resolver return the estimator's record. -/
theorem resolve_nutrition_fallback_witness :
    resolve_nutrition
      (fun _ => { status_code := 404,
                  json := { calories := 0, protein_g := 0, fat_g := 0, carbs_g := 0 } })
      "app-id" "app-key" "chicken breast" "200g" =
      estimate_macronutrients_with_vision_model "chicken breast" "200g" :=
  ((resolve_nutrition_fallback_iff_non200
      (fun _ => { status_code := 404,
                  json := { calories := 0, protein_g := 0, fat_g := 0, carbs_g := 0 } })
      "app-id" "app-key" "chicken breast" "200g").1 (by decide)).2

/-- C8: the JSON body of the request sent to the lookup service has its
`query` field equal to the quantity, the literal word "of", and the
ingredient name, space-separated in that order. -/
theorem nutritionix_request_query_format
    (app_id app_key ingredient quantity : String) :
    (nutritionix_request app_id app_key ingredient quantity).query =
      quantity ++ " of " ++ ingredient :=
  rfl

/-- Health assessment produced by `assess_healthiness_and_alternatives`
(lines 94-97): a healthiness flag and an ordered list of suggestions. -/
structure HealthAssessment where
  is_healthy : Bool
  suggestions : List String
  deriving DecidableEq, Repr

/-- Translation of `assess_healthiness_and_alternatives` (lines 88-98):
the source builds a prompt from the totals but returns a hard-coded
assessment regardless. -/
def assess_healthiness_and_alternatives (totals : NutritionRecord) :
    HealthAssessment :=
  { is_healthy := false
    suggestions := ["Use grilled tofu instead of chicken",
                    "Reduce olive oil to 1 tsp"] }

/-- Runtime error raised by the embedded Python code.  The only raise the
embedding models is the `NameError` for a call to an undefined name. -/
inductive PyError where
  | nameError (missing : String) : PyError
  deriving DecidableEq, Repr

/-- Translation of `generate_chatbot_response` (lines 101-113).  The
`for` loop iterates over `zip(ingredients.items(), nutrition_data)`; its
body calls `summarize_nutrition`, a name defined nowhere in the program,
so the first iteration raises `NameError` before anything is appended.
Only when the zipped pairing is empty does the loop body never run, and
the function then builds the totals block and the healthy/unhealthy
verdict (with the newline-joined suggestions when unhealthy) and returns
the string.  The ingredient mapping is modelled as an association list in
dict insertion order. -/
def generate_chatbot_response (ingredients : List (String × String))
    (nutrition_data : List (Option NutritionRecord))
    (totals : NutritionRecord) (health_assessment : HealthAssessment) :
    Except PyError String :=
  let response := "Here\x27s the analysis of your meal:\n\n"
  match List.zip ingredients nutrition_data with
  | _ :: _ => Except.error (PyError.nameError "summarize_nutrition")
  | [] =>
    let response := response ++ "\n**Total Macronutrients**:\n- Calories: " ++
      toString totals.calories ++ " kcal\n"
    let response := response ++ "- Protein: " ++ toString totals.protein_g ++
      "g\n- Fat: " ++ toString totals.fat_g ++ "g\n"
    let response := response ++ "- Carbs: " ++ toString totals.carbs_g ++ "g\n\n"
    let response :=
      if !health_assessment.is_healthy then
        response ++
          "This meal is **unhealthy**. Here are some healthier alternatives:\n" ++
          String.intercalate "\n" health_assessment.suggestions ++ "\n"
      else
        response ++ "This meal is **healthy**. Great choice!\n"
    Except.ok response

/-- C10: for every non-empty ingredient mapping paired with a non-empty
nutrition-data list, the renderer raises an unhandled `NameError` (the
helper `summarize_nutrition` it calls per ingredient line is not defined
anywhere in the program) rather than returning a report; it returns a
string exactly when the zipped pairing is empty. -/
theorem generate_chatbot_response_name_error
    (ingredients : List (String × String))
    (nutrition_data : List (Option NutritionRecord))
    (totals : NutritionRecord) (health_assessment : HealthAssessment) :
    (ingredients ≠ [] → nutrition_data ≠ [] →
      generate_chatbot_response ingredients nutrition_data totals health_assessment =
        Except.error (PyError.nameError "summarize_nutrition")) ∧
    ((∃ s, generate_chatbot_response ingredients nutrition_data totals
        health_assessment = Except.ok s) ↔
      ingredients.zip nutrition_data = []) := by
  constructor
  · intro hi hn
    match ingredients, nutrition_data with
    | [], _ => exact absurd rfl hi
    | _ :: _, [] => exact absurd rfl hn
    | i :: is, n :: ns => simp [generate_chatbot_response]
  · cases hz : ingredients.zip nutrition_data with
    | nil =>
        constructor
        · intro _
          rfl
        · intro _
          simp only [generate_chatbot_response, hz]
          exact ⟨_, rfl⟩
    | cons p ps =>
        constructor
        · rintro ⟨s, hs⟩
          simp only [generate_chatbot_response, hz] at hs
          exact Except.noConfusion hs
        · intro h
          exact List.noConfusion h

/-- Witness for C10: at a concrete one-ingredient mapping and
one-record nutrition list the renderer yields the `NameError`. -/
theorem generate_chatbot_response_name_error_witness :
    generate_chatbot_response [("broccoli", "150g")]
      [some { calories := 50, protein_g := 4, fat_g := 0, carbs_g := 10 }]
      { calories := 50, protein_g := 4, fat_g := 0, carbs_g := 10 }
      { is_healthy := true, suggestions := [] } =
      Except.error (PyError.nameError "summarize_nutrition") :=
  (generate_chatbot_response_name_error _ _ _ _).1 (by simp) (by simp)

/-- C6 fails on the code: at the spec's own rendering scenario
(`is_healthy` false, the single suggestion "Use grilled tofu instead of
chicken") with a non-empty ingredient mapping, the renderer does not
return any string at all — it raises `NameError` because
`summarize_nutrition` is undefined — so no returned string contains the
substrings "unhealthy" and the suggestion text.  This theorem evaluates
the renderer at that failing input. -/
theorem generate_chatbot_response_scenario_raises :
    generate_chatbot_response
      [("chicken breast", "200g"), ("broccoli", "150g"), ("olive oil", "1 tbsp")]
      [some { calories := 250, protein_g := 30, fat_g := 8, carbs_g := 5 },
       some { calories := 50, protein_g := 4, fat_g := 0, carbs_g := 10 },
       some { calories := 120, protein_g := 0, fat_g := 14, carbs_g := 0 }]
      { calories := 420, protein_g := 34, fat_g := 22, carbs_g := 15 }
      { is_healthy := false,
        suggestions := ["Use grilled tofu instead of chicken"] } =
      Except.error (PyError.nameError "summarize_nutrition") :=
  rfl

/-- A pixel of a true-color (RGB) image, channel values 0-255. -/
structure RGB where
  r : Nat
  g : Nat
  b : Nat
  deriving DecidableEq, Repr

/-- A decoded image after `Image.open(...).convert("RGB")`: its pixel grid
dimensions and a pixel accessor.  The decoder itself (PIL) is outside the
program and enters the embedding as an explicit function argument. -/
structure DecodedImage where
  width : Nat
  height : Nat
  pixel : Nat → Nat → RGB

/-- Model of `transforms.Resize((224, 224))` on line 24.  The library's
interpolation kernel is not part of this repository; a nearest-neighbour
sampling stands in for it.  Every property proved below depends only on
the output dimensions being the requested ones and on the map being a
function of the input image, not on the sampling rule. -/
def resize_image (img : DecodedImage) (h w : Nat) : DecodedImage :=
  { width := w
    height := h
    pixel := fun i j => img.pixel (i * img.height / h) (j * img.width / w) }

/-- Channel accessor in torchvision channel order (0 = R, 1 = G, 2 = B). -/
def channel_value (c : RGB) (k : Nat) : Nat :=
  if k = 0 then c.r else if k = 1 then c.g else c.b

/-- The fixed per-channel means of `transforms.Normalize` on line 26,
as exact rationals. -/
def norm_mean (k : Nat) : Rat :=
  if k = 0 then 485 / 1000 else if k = 1 then 456 / 1000 else 406 / 1000

/-- The fixed per-channel standard deviations of `transforms.Normalize`
on line 26, as exact rationals. -/
def norm_std (k : Nat) : Rat :=
  if k = 0 then 229 / 1000 else if k = 1 then 224 / 1000 else 225 / 1000

/-- Model of `transforms.ToTensor()` followed by the `Normalize` step:
scale each 0-255 channel value to [0,1] and apply (x - mean) / std per
channel, producing a channels × height × width nested list. -/
def to_tensor_normalized (img : DecodedImage) : List (List (List Rat)) :=
  (List.range 3).map fun k =>
    (List.range img.height).map fun i =>
      (List.range img.width).map fun j =>
        (((channel_value (img.pixel i j) k : Rat) / 255) - norm_mean k) / norm_std k

/-- Translation of `preprocess_image` (lines 22-29): decode the path as an
RGB image, resize to 224 × 224, convert to a normalized tensor, and add a
leading batch dimension of size 1 (`unsqueeze(0)` becomes wrapping in a
singleton list).  Decoding failure propagates as `none`. -/
def preprocess_image (decode : String → Option DecodedImage)
    (image_path : String) : Option (List (List (List (List Rat)))) :=
  match decode image_path with
  | none => none
  | some image => some [to_tensor_normalized (resize_image image 224 224)]

/-- Decidable check that a nested-list tensor has shape batch = 1,
channels = 3, height = 224, width = 224. -/
def tensor_shape_ok (t : List (List (List (List Rat)))) : Bool :=
  t.length = 1 && t.all fun batch =>
    batch.length = 3 && batch.all fun chan =>
      chan.length = 224 && chan.all fun row => row.length = 224

lemma to_tensor_normalized_shape (img : DecodedImage) :
    tensor_shape_ok [to_tensor_normalized (resize_image img 224 224)] = true := by
  simp [tensor_shape_ok, to_tensor_normalized, resize_image, List.all_eq_true,
    List.mem_map, List.mem_range]

/-- C7: preprocessing is deterministic and shape-fixed.  In the embedding
the whole pipeline — resize, tensor conversion, normalization with the
fixed constants, batch dimension — is a pure function of the decoded
image (the source composes only parameter-free deterministic transforms,
no random augmentation), so on any path that decodes successfully the
output is the single value exhibited by the first conjunct: two runs on
the same path yield that same tensor.  The second conjunct checks the
shape batch = 1, channels = 3, height = 224, width = 224 of whatever
tensor is produced. -/
theorem preprocess_image_deterministic_shape
    (decode : String → Option DecodedImage) (image_path : String)
    (img : DecodedImage) (h : decode image_path = some img) :
    preprocess_image decode image_path =
      some [to_tensor_normalized (resize_image img 224 224)] ∧
    Option.all tensor_shape_ok (preprocess_image decode image_path) = true := by
  have hval : preprocess_image decode image_path =
      some [to_tensor_normalized (resize_image img 224 224)] := by
    simp [preprocess_image, h]
  exact ⟨hval, by simp [hval, Option.all, to_tensor_normalized_shape]⟩

/-- Witness for C7: a concrete decoder that succeeds on a one-pixel black
image. -/
theorem preprocess_image_deterministic_shape_witness :
    preprocess_image
      (fun _ => some { width := 1, height := 1, pixel := fun _ _ => { r := 0, g := 0, b := 0 } })
      "meal.jpg" =
      some [to_tensor_normalized
        (resize_image
          { width := 1, height := 1, pixel := fun _ _ => { r := 0, g := 0, b := 0 } }
          224 224)] ∧
    Option.all tensor_shape_ok
      (preprocess_image
        (fun _ => some { width := 1, height := 1, pixel := fun _ _ => { r := 0, g := 0, b := 0 } })
        "meal.jpg") = true :=
  preprocess_image_deterministic_shape _ "meal.jpg" _ rfl
